import Mathlib

/-!
Shallow embedding of the reagraph fork's theme-resolution helpers
(src/themes/theme.ts) and of the CircularImage node renderer
(src/symbols/nodes/CircularImage.tsx): its asynchronous image load-state
machine, its fragment-shader sampling-coordinate transform, its spring
scale targets and its border-ring resolution.  JavaScript numbers are
modelled as rationals, undefined as Option.none, and the asynchronous
texture pipeline as a fold over an explicit event trace.
-/

namespace Reagraph

/-- Minimal node record: the theme resolvers and the CircularImage treat
the node as an opaque parameter; only its identity matters here. -/
structure GraphNode where
  id : String
deriving DecidableEq, Repr

/-- Minimal edge record, likewise treated opaquely by the resolvers. -/
structure GraphEdge where
  id : String
deriving DecidableEq, Repr

/-- A theme style field: either a literal value or a per-element callback.
A callback receives a possibly-absent element and may return undefined
(modelled as Option.none). -/
inductive StyleValue (T E : Type) where
  | value : T → StyleValue T E
  | callback : (Option E → Option T) → StyleValue T E

/-- Embeds getEdgeThemeColor from src/themes/theme.ts: if the style value
is a function it is invoked with the (possibly absent) edge and its result
returned verbatim; otherwise the literal is returned unchanged.
ColorRepresentation is modelled as String. -/
def getEdgeThemeColor (colorValue : StyleValue String GraphEdge)
    (edge : Option GraphEdge) : Option String :=
  match colorValue with
  | .callback f => f edge
  | .value c => some c

/-- Embeds getEdgeThemeNumber from src/themes/theme.ts; here the style
value itself is optional and undefined is returned unchanged. -/
def getEdgeThemeNumber (value : Option (StyleValue ℚ GraphEdge))
    (edge : Option GraphEdge) : Option ℚ :=
  match value with
  | some (.callback f) => f edge
  | some (.value n) => some n
  | none => none

/-- Embeds getNodeThemeNumber from src/themes/theme.ts. -/
def getNodeThemeNumber (value : Option (StyleValue ℚ GraphNode))
    (node : Option GraphNode) : Option ℚ :=
  match value with
  | some (.callback f) => f node
  | some (.value n) => some n
  | none => none

/-- Embeds the CircularImage border-field resolution (the useMemo blocks
resolvedBorderEnabled, resolvedBorderColor, resolvedBorderThickness,
resolvedBorderOpacity, resolvedBorderInnerRadius in
src/symbols/nodes/CircularImage.tsx): all five apply the same rule,
invoking a callback with the owning node. -/
def resolveBorderField {T : Type} (value : StyleValue T GraphNode)
    (node : GraphNode) : Option T :=
  match value with
  | .callback f => f (some node)
  | .value v => some v

/-- Modelled from the spec: the reference contract resolve(value, element)
of the Theme Resolver - if value is callable, invoke it with element
(which may be absent) and return its result verbatim, including undefined;
otherwise return value unchanged. -/
def specResolve {T E : Type} (value : StyleValue T E) (element : Option E) :
    Option T :=
  match value with
  | .callback f => f element
  | .value v => some v

/-- The single generic resolution operation, parameterized over the value
and element types and lifted to a possibly-undefined style value. -/
def resolveStyle {T E : Type} (value : Option (StyleValue T E))
    (element : Option E) : Option T :=
  match value with
  | some (.callback f) => f element
  | some (.value v) => some v
  | none => none

/-- The ImageLoadState record of src/symbols/nodes/CircularImage.tsx. -/
structure ImageLoadState where
  isLoading : Bool
  hasLoaded : Bool
  hasError : Bool
  aspectRatio : ℚ
deriving DecidableEq, Repr

/-- The useState initial value of the load state. -/
def initLoadState : ImageLoadState :=
  { isLoading := true, hasLoaded := false, hasError := false, aspectRatio := 1 }

/-- The reset performed inside the imageTexture useMemo whenever a
non-empty image reference recomputes the texture: isLoading, hasLoaded and
hasError are overwritten and every other field - aspectRatio - is spread
from the previous state. -/
def resetLoadState (s : ImageLoadState) : ImageLoadState :=
  { s with isLoading := true, hasLoaded := false, hasError := false }

/-- External events driving one CircularImage instance: an image-reference
prop assignment, and the asynchronous completions, each tagged with the
reference whose load triggered it.  A success completion carries the
measured width/height ratio. -/
inductive LoadEvent where
  | assign (img : String)
  | completeSuccess (ref : String) (ratio : ℚ)
  | completeError (ref : String)
deriving DecidableEq, Repr

/-- Component-level state: the load state, the current image prop (empty
string modelling a missing reference, which is falsy in the source guard),
and the references for which a texture load has been started. -/
structure CompState where
  loadState : ImageLoadState
  image : String
  started : List String
deriving DecidableEq, Repr

/-- State at mount, before the first render processes the image prop. -/
def initComp : CompState :=
  { loadState := initLoadState, image := "", started := [] }

/-- One step of the component as coded.  An assignment of a falsy image
skips both the reset and the load; an unchanged image does not recompute
the memo; a new non-empty image resets the flags and starts a load.  Both
completion callbacks update the state unconditionally: neither compares
its triggering reference with the current image.  The success callback
publishes the measured ratio; the error callback spreads the previous
state and sets isLoading false and hasError true. -/
def stepCode (s : CompState) (e : LoadEvent) : CompState :=
  match e with
  | .assign img =>
    if img = "" then { s with image := img }
    else if img = s.image then s
    else { s with image := img,
                  loadState := resetLoadState s.loadState,
                  started := s.started ++ [img] }
  | .completeSuccess _ ratio =>
    { s with loadState :=
        { isLoading := false, hasLoaded := true, hasError := false,
          aspectRatio := ratio } }
  | .completeError _ =>
    { s with loadState :=
        { s.loadState with isLoading := false, hasError := true } }

/-- Folds an event trace over the coded step from the mount state. -/
def runCode (events : List LoadEvent) : CompState :=
  events.foldl stepCode initComp

/-- Modelled from the spec: the stale-suppression rule the spec requires
but src/symbols/nodes/CircularImage.tsx does not contain - a completion is
applied only when its triggering reference equals the current image, and
is discarded otherwise. -/
def stepSpec (s : CompState) (e : LoadEvent) : CompState :=
  match e with
  | .assign _ => stepCode s e
  | .completeSuccess ref _ => if ref = s.image then stepCode s e else s
  | .completeError ref => if ref = s.image then stepCode s e else s

/-- Folds an event trace over the spec-modelled step from the mount state. -/
def runSpec (events : List LoadEvent) : CompState :=
  events.foldl stepSpec initComp

/-- The loading-indicator mesh is rendered exactly when
loadState.isLoading is true. -/
def loadingIndicatorVisible (s : ImageLoadState) : Bool := s.isLoading

/-- The shader material samples the placeholder texture whenever
hasLoaded is false. -/
def materialUsesPlaceholder (s : ImageLoadState) : Bool := !s.hasLoaded

/-- The aspectRatio uniform: the measured ratio when loaded, 1.0
otherwise. -/
def materialAspectRatio (s : ImageLoadState) : ℚ :=
  if s.hasLoaded then s.aspectRatio else 1

/-- A two-dimensional texture coordinate. -/
structure Vec2 where
  x : ℚ
  y : ℚ
deriving DecidableEq, Repr

/-- clamp(v, 0.0, 1.0) on one coordinate. -/
def clampQ (v : ℚ) : ℚ := max 0 (min 1 v)

/-- The aspect-ratio branch of the fragment shader, applied to centered
coordinates: a wide image divides the horizontal offset by the ratio, a
tall image multiplies the vertical offset by the ratio, a square image is
untouched. -/
def aspectCorrect (aspectRatio : ℚ) (uv : Vec2) : Vec2 :=
  if 1 < aspectRatio then { x := uv.x / aspectRatio, y := uv.y }
  else if aspectRatio < 1 then { x := uv.x, y := uv.y * aspectRatio }
  else uv

/-- The full sampling-coordinate transform the fragment shader applies on
the non-placeholder path: center, aspect-correct, scale by the fixed 0.95
margin, recenter, clamp both axes to [0, 1]. -/
def imageSampleUV (aspectRatio : ℚ) (vUv : Vec2) : Vec2 :=
  let c := aspectCorrect aspectRatio { x := vUv.x - 1/2, y := vUv.y - 1/2 }
  { x := clampQ (c.x * (19/20) + 1/2), y := clampQ (c.y * (19/20) + 1/2) }

/-- A three-dimensional scale vector. -/
structure Vec3 where
  x : ℚ
  y : ℚ
  z : ℚ
deriving DecidableEq, Repr

/-- The near-zero epsilon 0.00001 used for scales. -/
def epsilonScale : ℚ := 1/100000

/-- The from block of the main useSpring: the mount animation starts at
scale [0.00001, 0.00001, 0.00001]. -/
def springFromScale : Vec3 := { x := 1/100000, y := 1/100000, z := 1/100000 }

/-- The ringScale target of the main useSpring: half the node size when
selected, the near-zero epsilon otherwise. -/
def ringScaleTo (selected : Bool) (size : ℚ) : Vec3 :=
  if selected then { x := size / 2, y := size / 2, z := 1 }
  else { x := 1/100000, y := 1/100000, z := 1/100000 }

/-- The border Ring render: it is emitted only when the resolved
borderEnabled is true, with innerRadius Math.max(0.1, resolved value);
returns the rendered inner radius, or none when no ring is emitted.  The
identical expression appears in the simpler CircularImage variant. -/
def renderedBorderInnerRadius (bEnabled : StyleValue Bool GraphNode)
    (bInnerRadius : StyleValue ℚ GraphNode) (node : GraphNode) : Option ℚ :=
  match resolveBorderField bEnabled node with
  | some true => (resolveBorderField bInnerRadius node).map fun v => max (1/10) v
  | _ => none

/-- Assign reference A, then B; the completion for B arrives with measured
ratio 3, then, late, the completion for A with a different ratio 2. -/
def staleTrace : List LoadEvent :=
  [.assign "A", .assign "B", .completeSuccess "B" 3, .completeSuccess "A" 2]

/-- Assign reference A, then B; the stale success completion for A
arrives, then the error completion for B. -/
def mixedTrace : List LoadEvent :=
  [.assign "A", .assign "B", .completeSuccess "A" 2, .completeError "B"]

/-- Assign a decodable image of 2:1 aspect and let it complete. -/
def validTrace : List LoadEvent :=
  [.assign "valid.png", .completeSuccess "valid.png" 2]

/-- Assign an undecodable image and let its error completion arrive. -/
def brokenTrace : List LoadEvent :=
  [.assign "broken.png", .completeError "broken.png"]

/-- Load reference A to completion with measured ratio 2, then reassign
the image to B. -/
def loadedThenReassignTrace : List LoadEvent :=
  [.assign "A", .completeSuccess "A" 2, .assign "B"]

/-- Helper: the clamped coordinate is nonnegative. -/
theorem clampQ_nonneg (v : ℚ) : 0 ≤ clampQ v := le_max_left 0 (min 1 v)

/-- Helper: the clamped coordinate is at most one. -/
theorem clampQ_le_one (v : ℚ) : clampQ v ≤ 1 :=
  max_le (by norm_num) (min_le_left 1 v)

/-- C1: counter-evidence on the code as written.  After assignments
[A, B], B completes with ratio 3 and then the stale completion for A
arrives with ratio 2; the coded component applies the stale completion
(final aspectRatio 2) although the current reference is B, while the
stale-suppressing model required by the spec keeps the outcome of B
(aspectRatio 3).  The code does not tag requests or discard stale
completions, so the final ImageLoadState does not reflect the outcome of
B only. -/
theorem c1_stale_completion_applied :
    (runCode staleTrace).image = "B"
    ∧ (runCode staleTrace).loadState.aspectRatio = 2
    ∧ (runSpec staleTrace).loadState.aspectRatio = 3 := by
  decide

/-- C2 counterexample: after reference A loads with measured ratio 2,
reassigning the image to B resets the three flags but keeps aspectRatio
at 2, so the load state is not reset to the full initial state whose
aspectRatio is 1.0. -/
theorem c2_reset_keeps_old_aspect_ratio :
    (runCode loadedThenReassignTrace).loadState =
      { isLoading := true, hasLoaded := false, hasError := false,
        aspectRatio := 2 }
    ∧ (runCode loadedThenReassignTrace).loadState ≠ initLoadState := by
  decide

/-- C2 amended: whenever the image reference changes to a new non-empty
value, isLoading, hasLoaded and hasError are reset to true, false, false,
but aspectRatio retains its previous value instead of being reset to
1.0. -/
theorem c2_reset_preserves_aspect_ratio (s : CompState) (img : String)
    (hne : img ≠ "") (hch : img ≠ s.image) :
    (stepCode s (.assign img)).loadState =
      { isLoading := true, hasLoaded := false, hasError := false,
        aspectRatio := s.loadState.aspectRatio } := by
  simp [stepCode, hne, hch, resetLoadState]

/-- Witness for c2_reset_preserves_aspect_ratio at a concrete loaded
state. -/
theorem c2_reset_preserves_aspect_ratio_witness :
    (stepCode
      { loadState :=
          { isLoading := false, hasLoaded := true, hasError := false,
            aspectRatio := 2 },
        image := "A", started := ["A"] }
      (.assign "B")).loadState =
      { isLoading := true, hasLoaded := false, hasError := false,
        aspectRatio := 2 } :=
  c2_reset_preserves_aspect_ratio _ "B" (by decide) (by decide)

/-- C3: with the image reference missing, the coded component never
starts a texture load and always samples the placeholder, but the load
state keeps its initial isLoading = true forever and therefore the
loading indicator is rendered - contrary to the claim that the Loading
state is never entered. -/
theorem c3_no_image_keeps_loading :
    (runCode [.assign ""]).started = []
    ∧ materialUsesPlaceholder (runCode [.assign ""]).loadState = true
    ∧ (runCode [.assign ""]).loadState.isLoading = true
    ∧ loadingIndicatorVisible (runCode [.assign ""]).loadState = true := by
  decide

/-- C4: the interleaving [assign A, assign B, stale success for A, error
for B] ends in a steady state, all completions processed, in which
hasLoaded and hasError are simultaneously true, violating the
exactly-one-of-three claim. -/
theorem c4_loaded_and_error_both_true :
    (runCode mixedTrace).loadState.hasLoaded = true
    ∧ (runCode mixedTrace).loadState.hasError = true
    ∧ (runCode mixedTrace).loadState.isLoading = false := by
  decide

/-- C5: each resolver entry point - getEdgeThemeColor, getEdgeThemeNumber,
getNodeThemeNumber and the CircularImage border-field resolution - agrees
with the reference contract specResolve for every style value and every
element: a callback result is returned verbatim, undefined included and
with the element possibly absent, and a literal is returned unchanged. -/
theorem c5_resolvers_match_reference :
    (∀ (v : StyleValue String GraphEdge) (e : Option GraphEdge),
        getEdgeThemeColor v e = specResolve v e)
    ∧ (∀ (v : StyleValue ℚ GraphEdge) (e : Option GraphEdge),
        getEdgeThemeNumber (some v) e = specResolve v e)
    ∧ (∀ e : Option GraphEdge, getEdgeThemeNumber none e = none)
    ∧ (∀ (v : StyleValue ℚ GraphNode) (n : Option GraphNode),
        getNodeThemeNumber (some v) n = specResolve v n)
    ∧ (∀ n : Option GraphNode, getNodeThemeNumber none n = none)
    ∧ (∀ (T : Type) (v : StyleValue T GraphNode) (node : GraphNode),
        resolveBorderField v node = specResolve v (some node)) := by
  refine ⟨fun v e => ?_, fun v e => ?_, fun e => rfl, fun v n => ?_,
    fun n => rfl, fun T v node => ?_⟩ <;> cases v <;> rfl

/-- C6: the aspect branch of the shader transform is the identity when
the ratio is 1, divides the horizontal offset-from-center by the ratio
when it exceeds 1, multiplies the vertical offset-from-center by the
ratio when it is below 1, and for every ratio and every input coordinate
the full transform lands in [0, 1] on both axes after clamping. -/
theorem c6_sampling_transform :
    (∀ uv : Vec2, aspectCorrect 1 uv = uv)
    ∧ (∀ (r : ℚ) (uv : Vec2), 1 < r →
        aspectCorrect r uv = { x := uv.x / r, y := uv.y })
    ∧ (∀ (r : ℚ) (uv : Vec2), 0 < r → r < 1 →
        aspectCorrect r uv = { x := uv.x, y := uv.y * r })
    ∧ (∀ (r : ℚ) (vUv : Vec2),
        0 ≤ (imageSampleUV r vUv).x ∧ (imageSampleUV r vUv).x ≤ 1
        ∧ 0 ≤ (imageSampleUV r vUv).y ∧ (imageSampleUV r vUv).y ≤ 1) := by
  refine ⟨fun uv => ?_, fun r uv h => ?_, fun r uv h0 h1 => ?_,
    fun r vUv => ?_⟩
  · norm_num [aspectCorrect]
  · rw [aspectCorrect, if_pos h]
  · rw [aspectCorrect, if_neg (not_lt.mpr h1.le), if_pos h1]
  · exact ⟨clampQ_nonneg _, clampQ_le_one _, clampQ_nonneg _, clampQ_le_one _⟩

/-- Witness for c6_sampling_transform at the concrete ratios 2 and 1/2. -/
theorem c6_sampling_transform_witness :
    aspectCorrect 2 { x := 1/4, y := 1/3 } = { x := 1/8, y := 1/3 }
    ∧ aspectCorrect (1/2) { x := 1/4, y := 1/3 } = { x := 1/4, y := 1/6 } := by
  refine ⟨?_, ?_⟩
  · rw [c6_sampling_transform.2.1 2 _ (by norm_num)]
    norm_num [Vec2.mk.injEq]
  · rw [c6_sampling_transform.2.2.1 (1/2) _ (by norm_num) (by norm_num)]
    norm_num [Vec2.mk.injEq]

/-- C7: the success scenario with a 2:1 image ends in exactly
{isLoading false, hasLoaded true, hasError false, aspectRatio 2}; the
failure scenario ends with only hasError set while the material still
samples the placeholder texture; both completion handlers are total state
updates, never raising across the render boundary. -/
theorem c7_completion_scenarios :
    (runCode validTrace).loadState =
      { isLoading := false, hasLoaded := true, hasError := false,
        aspectRatio := 2 }
    ∧ (runCode brokenTrace).loadState.isLoading = false
    ∧ (runCode brokenTrace).loadState.hasLoaded = false
    ∧ (runCode brokenTrace).loadState.hasError = true
    ∧ materialUsesPlaceholder (runCode brokenTrace).loadState = true := by
  decide

/-- C8: the single generic operation resolveStyle is extensionally equal
to getEdgeThemeColor, getEdgeThemeNumber and getNodeThemeNumber on their
respective value and element types. -/
theorem c8_generic_resolve_covers_all_three :
    (∀ (v : StyleValue String GraphEdge) (e : Option GraphEdge),
        getEdgeThemeColor v e = resolveStyle (some v) e)
    ∧ (∀ (v : Option (StyleValue ℚ GraphEdge)) (e : Option GraphEdge),
        getEdgeThemeNumber v e = resolveStyle v e)
    ∧ (∀ (v : Option (StyleValue ℚ GraphNode)) (n : Option GraphNode),
        getNodeThemeNumber v n = resolveStyle v n) := by
  refine ⟨fun v e => ?_, fun v e => ?_, fun v n => ?_⟩
  · cases v <;> rfl
  · cases v with
    | none => rfl
    | some sv => cases sv <;> rfl
  · cases v with
    | none => rfl
    | some sv => cases sv <;> rfl

/-- C9: the mount-animation starting scale and the selection-ring scale
target while unselected are componentwise the strictly positive epsilon
0.00001 = 1/100000, never exactly zero, for every node size. -/
theorem c9_near_zero_scales_positive :
    springFromScale =
      { x := epsilonScale, y := epsilonScale, z := epsilonScale }
    ∧ (∀ size : ℚ, ringScaleTo false size =
        { x := epsilonScale, y := epsilonScale, z := epsilonScale })
    ∧ 0 < epsilonScale ∧ epsilonScale = 1/100000 := by
  refine ⟨rfl, fun size => rfl, by norm_num [epsilonScale], rfl⟩

/-- C10: whenever the resolved borderEnabled is true and the resolved
borderInnerRadius is v - constant or callback-produced - the border ring
is rendered with inner radius max(0.1, v): a value below 0.1 is silently
clamped up to 0.1 and a value at or above 0.1 passes through. -/
theorem c10_border_inner_radius_clamped
    (bEnabled : StyleValue Bool GraphNode) (bInner : StyleValue ℚ GraphNode)
    (node : GraphNode) (v : ℚ)
    (hEn : resolveBorderField bEnabled node = some true)
    (hV : resolveBorderField bInner node = some v) :
    renderedBorderInnerRadius bEnabled bInner node = some (max (1/10) v)
    ∧ (v < 1/10 →
        renderedBorderInnerRadius bEnabled bInner node = some (1/10))
    ∧ (1/10 ≤ v →
        renderedBorderInnerRadius bEnabled bInner node = some v) := by
  have h : renderedBorderInnerRadius bEnabled bInner node
      = some (max (1/10) v) := by
    simp [renderedBorderInnerRadius, hEn, hV]
  refine ⟨h, fun hlt => ?_, fun hge => ?_⟩
  · rw [h, max_eq_left hlt.le]
  · rw [h, max_eq_right hge]

/-- Witness for c10_border_inner_radius_clamped: a callback-resolved inner
radius 1/20 below the clamp is raised to 1/10. -/
theorem c10_border_inner_radius_clamped_witness :
    renderedBorderInnerRadius (StyleValue.value true)
      (StyleValue.callback fun _ => some (1/20)) { id := "n1" }
      = some (1/10) := by
  have h := c10_border_inner_radius_clamped (StyleValue.value true)
    (StyleValue.callback fun _ => some (1/20)) { id := "n1" } (1/20) rfl rfl
  exact h.2.1 (by norm_num)

end Reagraph
